import Mathlib

/-!
Shallow embedding of the TBHWebsite Backend2 server (Express + Mongoose):
`routes/authRoutes.js`, `routes/eventRoutes.js`, `middleware/authMiddleware.js`,
`models/Event.js`.  Pure JS handler logic is translated into Lean functions;
the external collaborators (random OTP generation, e-mail delivery, the
MongoDB user lookup, JWT signing, JSON.parse of the `speakers` form field)
enter as explicit parameters describing their outcome.  Machine-level state
(the in-memory OTP store, the uploads directory) is passed explicitly.
-/

namespace TBH

/-! ## OTP store (`authRoutes.js`)

`const otpStore = {}` — a process-wide JS object mapping an email to
`{ otp, expires }`.  We model the object as an association list; JS property
assignment overwrites the previous binding, deletion removes it. -/

structure OtpEntry where
  otp : String
  expires : Nat
deriving Repr, DecidableEq

abbrev OtpStore := List (String × OtpEntry)

/-- `otpStore[email]` — property read. -/
def otpGet (s : OtpStore) (k : String) : Option OtpEntry :=
  (s.find? (fun p => decide (p.1 = k))).map (fun p => p.2)

/-- `otpStore[email] = v` — property assignment (overwrites any prior binding). -/
def otpSet (s : OtpStore) (k : String) (v : OtpEntry) : OtpStore :=
  (k, v) :: s.filter (fun p => decide (p.1 ≠ k))

/-- `delete otpStore[email]`. -/
def otpDel (s : OtpStore) (k : String) : OtpStore :=
  s.filter (fun p => decide (p.1 ≠ k))

/-- Environment configuration read by `authRoutes.js`:
`process.env.CLUB_EMAIL` and `process.env.ADMIN_SECRET`. -/
structure AuthEnv where
  clubEmail : String
  adminSecret : String

/-- Outcome of `POST /api/auth/generate-otp` (`authRoutes.js` lines 48-77). -/
inductive GenResult
  | invalidEmail      -- 400 'Invalid admin email.'
  | invalidSecret     -- 401 'Invalid Admin Secret Key.'
  | otpSent           -- 200 'OTP sent to admin email.'
  | sendFailed        -- 500 'Failed to send OTP. ...'
deriving Repr, DecidableEq

/-- HTTP status produced for each `GenResult`. -/
def genStatus : GenResult → Nat
  | .invalidEmail => 400
  | .invalidSecret => 401
  | .otpSent => 200
  | .sendFailed => 500

/-- `router.post('/generate-otp')`, `authRoutes.js` lines 48-77.
`newOtp` stands for `crypto.randomBytes(3).toString('hex')`, `now` for
`Date.now()` in milliseconds, `sendOk` for whether `sendOtpEmail` resolves. -/
def generateOtp (env : AuthEnv) (email adminSecret : String) (newOtp : String)
    (now : Nat) (sendOk : Bool) (s : OtpStore) : GenResult × OtpStore :=
  if email ≠ env.clubEmail then (.invalidEmail, s)
  else if adminSecret ≠ env.adminSecret then (.invalidSecret, s)
  else
    -- const expires = Date.now() + 10 * 60 * 1000; otpStore[email] = { otp, expires }
    let s' := otpSet s email ⟨newOtp, now + 10 * 60 * 1000⟩
    if sendOk then (.otpSent, s') else (.sendFailed, s')

/-- Outcome of the external part of the login (`User.findOne` + `jwt.sign`):
the admin user is found in the DB, is absent (placeholder identity is used),
or the lookup/signing throws. -/
inductive LoginOutcome
  | found (id : String)
  | notFound
  | dbFail
deriving Repr, DecidableEq

/-- The JWT payload's `user` object: `{ id, role }`. -/
structure TokenPayload where
  id : String
  role : String
deriving Repr, DecidableEq

/-- Outcome of `POST /api/auth/verify-otp` (`authRoutes.js` lines 82-131). -/
inductive VerifyResult
  | invalidEmail                     -- 400 'Invalid admin email.'
  | invalidOrExpired                 -- 400 'Invalid or expired OTP.'
  | loggedIn (payload : TokenPayload) -- 200 { token }
  | serverError                      -- 500 'Server error during login.'
deriving Repr, DecidableEq

/-- HTTP status produced for each `VerifyResult`. -/
def verifyStatus : VerifyResult → Nat
  | .invalidEmail => 400
  | .invalidOrExpired => 400
  | .loggedIn _ => 200
  | .serverError => 500

/-- `router.post('/verify-otp')`, `authRoutes.js` lines 82-131.  The stored
entry is deleted (line 98) before the `try` block that performs the user
lookup and token signing, so the deletion happens on every `login` outcome. -/
def verifyOtp (env : AuthEnv) (email otp : String) (now : Nat)
    (login : LoginOutcome) (s : OtpStore) : VerifyResult × OtpStore :=
  if email ≠ env.clubEmail then (.invalidEmail, s)
  else
    match otpGet s email with
    | none => (.invalidOrExpired, s)
    | some e =>
      if e.otp ≠ otp ∨ now > e.expires then (.invalidOrExpired, s)
      else
        -- delete otpStore[email]  (line 98, before the try block)
        let s' := otpDel s email
        match login with
        | .found id => (.loggedIn ⟨id, "admin"⟩, s')
        | .notFound => (.loggedIn ⟨"admin_id_placeholder_from_authroutes", "admin"⟩, s')
        | .dbFail => (.serverError, s')

/-- The OTP store holds at most one binding per email key. -/
def storeKeysNodup (s : OtpStore) : Prop := (s.map Prod.fst).Nodup

/-! ## Role gate (`middleware/authMiddleware.js`)

`authorizeRoles(roles)` returns a middleware closure over `req.user`
(the decoded JWT `user` object).  JS truthiness: `!req.user.role` also
holds for the empty string, so `role` is modelled as `Option String`
with `some ""` standing for an empty-string role. -/

structure UserClaim where
  id : String
  role : Option String
deriving Repr, DecidableEq

inductive AuthzOutcome
  | noIdentity     -- 403 'Access denied: No user or role information found in token.'
  | roleNotAllowed -- 403 'Access denied: Requires one of the following roles: ...'
  | pass           -- next()
deriving Repr, DecidableEq

/-- `authorizeRoles`, `authMiddleware.js` lines 31-42. -/
def authorizeRoles (roles : List String) (user : Option UserClaim) : AuthzOutcome :=
  match user with
  | none => .noIdentity
  | some u =>
    match u.role with
    | none => .noIdentity
    | some r =>
      if r = "" then .noIdentity                 -- `!req.user.role` is true for ''
      else if roles.contains r then .pass
      else .roleNotAllowed

/-! ## Events (`models/Event.js`, `routes/eventRoutes.js`)

JS truthiness on request-body string fields: a field is `Option String`,
absent = `none`, and the code's `if (!field)` checks reject both `none`
and `some ""`. -/

/-- A request-body string field is truthy: present and not the empty string. -/
def truthy : Option String → Bool
  | none => false
  | some s => decide (s ≠ "")

/-- A speaker object as produced by `JSON.parse` of the `speakers` field:
its `name` and `id` properties may each be absent. -/
structure Speaker where
  name : Option String
  id : Option Int
deriving Repr, DecidableEq

/-- Result of running `JSON.parse` on the `speakers` form field and the
route's shape check (`Array.isArray` + every element an object):
`malformed` covers a parse exception and a non-array / non-object-element
result — both reach the same `catch` and yield 400. -/
inductive SpeakersInput
  | malformed
  | wellFormed (l : List Speaker)
deriving Repr, DecidableEq

/-- The `poster` subdocument: `{ type, value }`. -/
structure Poster where
  type : String
  value : String
deriving Repr, DecidableEq

/-- An event document (fields of `models/Event.js` plus the extra fields the
route passes through). -/
structure Event where
  eventName : String
  eventDate : String
  eventTime : String
  eventLocation : String
  eventLink : String
  academicYear : String
  description : String
  speakers : List Speaker
  poster : Poster
deriving Repr, DecidableEq

/-- The multipart body of a create/update event request; every scalar field
may be absent. -/
structure EventReqBody where
  eventName : Option String := none
  eventDate : Option String := none
  eventTime : Option String := none
  eventLocation : Option String := none
  eventLink : Option String := none
  academicYear : Option String := none
  description : Option String := none
  speakers : Option SpeakersInput := none
  posterType : Option String := none
  posterValue : Option String := none
deriving Repr, DecidableEq

/-- `req.file` as produced by Multer: the generated stored filename. -/
structure ReqFile where
  filename : String
deriving Repr, DecidableEq

/-- `s.startsWith(p)` on JS strings, via the character list. -/
def listStartsWith : List Char → List Char → Bool
  | _, [] => true
  | [], _ :: _ => false
  | a :: as, b :: bs => a == b && listStartsWith as bs

def strStartsWith (s p : String) : Bool := listStartsWith s.toList p.toList

/-- `deleteOldPoster`, `eventRoutes.js` lines 16-27: `fs.unlink` is attempted
exactly when the path is truthy and starts with '/uploads/'.  The Bool is
whether the backing file is removed from disk. -/
def deleteOldPoster (posterPath : String) : Bool :=
  !(posterPath == "") && strStartsWith posterPath "/uploads/"

/-- The fixed placeholder poster address (`eventRoutes.js` line 94). -/
def placeholderPoster : String := "https://via.placeholder.com/300x200?text=No+Poster"

/-- Poster decision on create, `eventRoutes.js` lines 84-96. -/
def createPoster (file : Option ReqFile) (posterType posterValue : Option String) : Poster :=
  match file with
  | some f => ⟨"upload", "/uploads/" ++ f.filename⟩
  | none =>
    if posterType == some "url" && truthy posterValue then
      ⟨"url", posterValue.getD ""⟩
    else
      ⟨"url", placeholderPoster⟩

/-! ### Mongoose schema validation (`models/Event.js`)

Run by `newEvent.save()` and by `findByIdAndUpdate(..., runValidators)`.
A failure surfaces as `err.name = 'ValidationError'` and the route maps it
to 400. -/

/-- ASCII whitespace, standing for the JS regex class `\s`. -/
def isSpaceChar (c : Char) : Bool :=
  c == ' ' || c == '\t' || c == '\n' || c == '\r' || c == '\x0b' || c == '\x0c'

/-- Drop leading whitespace of a character list. -/
def dropLeadingSpaces : List Char → List Char
  | [] => []
  | c :: cs => if isSpaceChar c then dropLeadingSpaces cs else c :: cs

/-- The schema's `trim: true` setter (JS `String.prototype.trim`, restricted
to ASCII whitespace): strip whitespace from both ends. -/
def strTrim (s : String) : String :=
  ⟨(dropLeadingSpaces (dropLeadingSpaces s.toList).reverse).reverse⟩

/-- Body of the poster URL regex after the scheme:
`[^\s/$.?#].[^\s]*$` — one character outside the class, one more
character (any, `.`), then no whitespace to the end. -/
def urlShapeChars : List Char → Bool
  | c1 :: c2 :: rest =>
    !(isSpaceChar c1) && !(c1 == '/') && !(c1 == '$') && !(c1 == '.') &&
      !(c1 == '?') && !(c1 == '#') &&
    !(c2 == '\n') && !(c2 == '\r') &&
    rest.all (fun c => !(isSpaceChar c))
  | _ => false

/-- Scheme part of the regex: `^(https?|ftp)://`, case-insensitive. -/
def schemeRest (cs : List Char) : Option (List Char) :=
  if cs.take 8 = "https://".toList then some (cs.drop 8)
  else if cs.take 7 = "http://".toList then some (cs.drop 7)
  else if cs.take 6 = "ftp://".toList then some (cs.drop 6)
  else none

/-- `/^(https?|ftp):\/\/[^\s\/$.?#].[^\s]*$/i` of `models/Event.js`. -/
def urlShape (v : String) : Bool :=
  match schemeRest (v.toList.map Char.toLower) with
  | some rest => urlShapeChars rest
  | none => false

/-- Per-element speaker validity: schema `name` required, `id` required with
`min 1`, matching the custom validator's
`speaker && speaker.name && typeof speaker.id === 'number' && speaker.id >= 1`. -/
def validSpeaker (s : Speaker) : Bool :=
  truthy s.name &&
  (match s.id with
   | some n => decide (1 ≤ n)
   | none => false)

/-- Custom path validator on `speakers` (`models/Event.js` lines 81-87):
non-empty and every element valid. -/
def speakersOk (l : List Speaker) : Bool :=
  !(l.isEmpty) && l.all validSpeaker

/-- Document validation of `models/Event.js`: `eventName` required with
`trim` and `minlength 3`; `eventDate` required; the `speakers` custom
validator; `poster.type` in the `upload`/`url` enum; `poster.value`
required and URL-shaped when the type is `url`; `academicYear` in its
enum. -/
def validateEvent (e : Event) : Bool :=
  decide (3 ≤ (strTrim e.eventName).toList.length) &&
  !(e.eventDate == "") &&
  speakersOk e.speakers &&
  (e.poster.type == "upload" || e.poster.type == "url") &&
  !(e.poster.value == "") &&
  (!(e.poster.type == "url") || urlShape e.poster.value) &&
  (e.academicYear == "2024-25" || e.academicYear == "2025-26")

/-- Result of `POST /api/events`: the HTTP status, the persisted document
(if any), and whether a file uploaded with this request is still on disk
when the response goes out. -/
structure CreateOutcome where
  status : Nat
  saved : Option Event
  fileKept : Bool
deriving Repr, DecidableEq

/-- The `new Event({...})` document built by the create route
(`eventRoutes.js` lines 124-137). -/
def builtEvent (body : EventReqBody) (poster : Poster)
    (parsedSpeakers : List Speaker) : Event :=
  { eventName := body.eventName.getD ""
    eventDate := body.eventDate.getD ""
    eventTime := body.eventTime.getD ""
    eventLocation := body.eventLocation.getD ""
    eventLink := body.eventLink.getD ""
    academicYear := body.academicYear.getD ""
    description := body.description.getD ""
    speakers := parsedSpeakers
    poster := poster }

/-- Document construction + `save()` of the create route
(`eventRoutes.js` lines 124-148): the saved document validates against the
schema; a `ValidationError` is answered with 400 — without touching the
uploaded file. -/
def saveNewEvent (body : EventReqBody) (file : Option ReqFile) (poster : Poster)
    (parsedSpeakers : List Speaker) : CreateOutcome :=
  if validateEvent (builtEvent body poster parsedSpeakers) then
    { status := 201, saved := some (builtEvent body poster parsedSpeakers),
      fileKept := file.isSome }
  else
    { status := 400, saved := none, fileKept := file.isSome }

/-- `router.post('/')`, `eventRoutes.js` lines 65-151.  The uploaded file is
unlinked only in the missing-required-fields branch (lines 100-105); the
malformed-speakers branch (lines 118-121) and the `ValidationError` catch
(lines 144-147) return 400 with the file still on disk. -/
def createEvent (body : EventReqBody) (file : Option ReqFile) : CreateOutcome :=
  if !(truthy body.eventName) || !(truthy body.eventDate) ||
     !(truthy body.academicYear) || !(truthy body.eventLocation) then
    -- if (req.file) fs.unlink(req.file.path, ...)
    { status := 400, saved := none, fileKept := false }
  else
    match body.speakers with
    | some .malformed =>
      { status := 400, saved := none, fileKept := file.isSome }
    | some (.wellFormed l) =>
      saveNewEvent body file (createPoster file body.posterType body.posterValue) l
    | none =>
      saveNewEvent body file (createPoster file body.posterType body.posterValue) []

/-- Result of `PUT /api/events/:id` on an existing event: the HTTP status,
the document after the request, and whether the previous poster's backing
file was removed from disk during the request. -/
structure UpdateOutcome where
  status : Nat
  finalEvent : Event
  oldFileDeleted : Bool
deriving Repr, DecidableEq

/-- The document as it stands after applying `$set: updateFields`:
Mongoose drops `undefined` values from the update and applies the rest;
`newPoster = none` means `updateFields` carried no `poster` key. -/
def updatedCandidate (existing : Event) (body : EventReqBody)
    (newSpeakers : List Speaker) (newPoster : Option Poster) : Event :=
  { eventName := body.eventName.getD existing.eventName
    eventDate := body.eventDate.getD existing.eventDate
    eventTime := body.eventTime.getD existing.eventTime
    eventLocation := body.eventLocation.getD existing.eventLocation
    eventLink := body.eventLink.getD existing.eventLink
    academicYear := body.academicYear.getD existing.academicYear
    description := body.description.getD existing.description
    speakers := newSpeakers
    poster := newPoster.getD existing.poster }

/-- `findByIdAndUpdate` with `$set: updateFields` and `runValidators`
(`eventRoutes.js` lines 223-241): the updated document must validate; a
`ValidationError` yields 400 and leaves the stored document unchanged. -/
def finishUpdate (existing : Event) (body : EventReqBody)
    (newSpeakers : List Speaker) (newPoster : Option Poster) (del : Bool) :
    UpdateOutcome :=
  if validateEvent (updatedCandidate existing body newSpeakers newPoster) then
    { status := 200,
      finalEvent := updatedCandidate existing body newSpeakers newPoster,
      oldFileDeleted := del }
  else
    { status := 400, finalEvent := existing, oldFileDeleted := del }

/-- Poster branch of the update route (`eventRoutes.js` lines 207-219),
reached after the speakers parse succeeded. -/
def updatePoster (existing : Event) (body : EventReqBody)
    (file : Option ReqFile) (newSpeakers : List Speaker) : UpdateOutcome :=
  match file with
  | some f =>
    -- deleteOldPoster(existingEvent.poster.value); poster := upload/new path
    finishUpdate existing body newSpeakers
      (some ⟨"upload", "/uploads/" ++ f.filename⟩)
      (deleteOldPoster existing.poster.value)
  | none =>
    match body.posterType with
    | some pt =>
      if pt = "" then
        -- `else if (posterType)` is false for '' — poster untouched
        finishUpdate existing body newSpeakers none false
      else if pt = "url" then
        finishUpdate existing body newSpeakers
          (some ⟨"url", body.posterValue.getD ""⟩)
          (if existing.poster.type == "upload" then
             deleteOldPoster existing.poster.value
           else false)
      else
        -- 400 'Invalid poster type specified for update.'
        { status := 400, finalEvent := existing, oldFileDeleted := false }
    | none => finishUpdate existing body newSpeakers none false

/-- `router.put('/:id')`, `eventRoutes.js` lines 156-243, for an existing
event (`findById` succeeded).  Order as in source: speakers are parsed
first (lines 194-204, a malformed payload answers 400 before the poster
step); then the poster branch (lines 207-219); then the `$set` update. -/
def updateEvent (existing : Event) (body : EventReqBody) (file : Option ReqFile) :
    UpdateOutcome :=
  match body.speakers with
  | some .malformed =>
    { status := 400, finalEvent := existing, oldFileDeleted := false }
  | some (.wellFormed l) => updatePoster existing body file l
  | none => updatePoster existing body file existing.speakers

/-- Well-formedness of a stored poster, maintained by the routes: an
`upload` value is a path under `/uploads/` produced by Multer, a `url`
value passed the schema's URL-shape validator, and the type is one of the
two enum members. -/
def posterInvariant (p : Poster) : Prop :=
  (p.type = "upload" → strStartsWith p.value "/uploads/" = true) ∧
  (p.type = "url" → urlShape p.value = true) ∧
  (p.type = "upload" ∨ p.type = "url")

/-! ## Helper lemmas -/

theorem otpGet_set_self (s : OtpStore) (k : String) (v : OtpEntry) :
    otpGet (otpSet s k v) k = some v := by
  simp [otpGet, otpSet]

theorem otpGet_del_self (s : OtpStore) (k : String) :
    otpGet (otpDel s k) k = none := by
  have h : List.find? (fun p => decide (p.1 = k))
      (List.filter (fun p => decide (p.1 ≠ k)) s) = none := by
    rw [List.find?_eq_none]
    intro p hp
    have h2 := (List.mem_filter.mp hp).2
    simp at h2 ⊢
    exact h2
  unfold otpGet otpDel
  rw [h]
  rfl

theorem otpSet_nodup (s : OtpStore) (k : String) (v : OtpEntry)
    (h : storeKeysNodup s) : storeKeysNodup (otpSet s k v) := by
  unfold storeKeysNodup otpSet
  rw [List.map_cons, List.nodup_cons]
  constructor
  · intro hmem
    obtain ⟨p, hp, hpk⟩ := List.mem_map.mp hmem
    have := (List.mem_filter.mp hp).2
    simp at this
    exact this hpk
  · exact List.Nodup.sublist ((List.filter_sublist s).map Prod.fst) h

theorem otpDel_nodup (s : OtpStore) (k : String)
    (h : storeKeysNodup s) : storeKeysNodup (otpDel s k) := by
  unfold storeKeysNodup otpDel
  exact List.Nodup.sublist ((List.filter_sublist s).map Prod.fst) h

theorem generateOtp_success_store (env : AuthEnv) (code : String) (now : Nat)
    (sendOk : Bool) (s : OtpStore) :
    (generateOtp env env.clubEmail env.adminSecret code now sendOk s).2 =
      otpSet s env.clubEmail ⟨code, now + 10 * 60 * 1000⟩ := by
  unfold generateOtp
  rw [if_neg (fun h => h rfl), if_neg (fun h => h rfl)]
  cases sendOk <;> rfl

theorem verifyOtp_noEntry (env : AuthEnv) (code : String) (now : Nat)
    (login : LoginOutcome) (s : OtpStore)
    (h : otpGet s env.clubEmail = none) :
    verifyOtp env env.clubEmail code now login s = (.invalidOrExpired, s) := by
  unfold verifyOtp
  rw [if_neg (fun hc => hc rfl), h]

theorem verifyOtp_reject (env : AuthEnv) (code : String) (now : Nat)
    (login : LoginOutcome) (s : OtpStore) (e : OtpEntry)
    (hget : otpGet s env.clubEmail = some e)
    (hbad : e.otp ≠ code ∨ now > e.expires) :
    verifyOtp env env.clubEmail code now login s = (.invalidOrExpired, s) := by
  unfold verifyOtp
  rw [if_neg (fun hc => hc rfl), hget]
  dsimp only
  rw [if_pos hbad]

theorem verifyOtp_success_store (env : AuthEnv) (code : String) (now : Nat)
    (login : LoginOutcome) (s : OtpStore) (e : OtpEntry)
    (hget : otpGet s env.clubEmail = some e)
    (hcode : e.otp = code) (hexp : now ≤ e.expires) :
    (verifyOtp env env.clubEmail code now login s).2 = otpDel s env.clubEmail := by
  unfold verifyOtp
  rw [if_neg (fun hc => hc rfl), hget]
  dsimp only
  rw [if_neg (by push_neg; exact ⟨hcode, hexp⟩)]
  cases login <;> rfl

theorem verifyOtp_success_result (env : AuthEnv) (code : String) (now : Nat)
    (login : LoginOutcome) (s : OtpStore) (e : OtpEntry)
    (hget : otpGet s env.clubEmail = some e)
    (hcode : e.otp = code) (hexp : now ≤ e.expires)
    (hlogin : login ≠ .dbFail) :
    ∃ p, (verifyOtp env env.clubEmail code now login s).1 = .loggedIn p ∧
      p.role = "admin" := by
  unfold verifyOtp
  rw [if_neg (fun hc => hc rfl), hget]
  dsimp only
  rw [if_neg (by push_neg; exact ⟨hcode, hexp⟩)]
  cases login with
  | found id => exact ⟨⟨id, "admin"⟩, rfl, rfl⟩
  | notFound => exact ⟨⟨"admin_id_placeholder_from_authroutes", "admin"⟩, rfl, rfl⟩
  | dbFail => exact absurd rfl hlogin

theorem uploads_toList_head {v : String}
    (h : strStartsWith v "/uploads/" = true) : ∃ cs, v.toList = '/' :: cs := by
  unfold strStartsWith at h
  cases hv : v.toList with
  | nil =>
    rw [hv] at h
    exact absurd h (by decide)
  | cons a as =>
    rw [hv] at h
    have hlit : "/uploads/".toList = '/' :: "uploads/".toList := rfl
    rw [hlit] at h
    simp only [listStartsWith, Bool.and_eq_true, beq_iff_eq] at h
    exact ⟨as, by rw [h.1]⟩

theorem schemeRest_slash (l : List Char) : schemeRest ('/' :: l) = none := by
  unfold schemeRest
  rw [if_neg, if_neg, if_neg]
  · intro hc
    have : ('/' :: l).take 6 = '/' :: l.take 5 := rfl
    rw [this] at hc
    have := (List.cons_eq_cons.mp hc).1
    exact absurd this (by decide)
  · intro hc
    have : ('/' :: l).take 7 = '/' :: l.take 6 := rfl
    rw [this] at hc
    have := (List.cons_eq_cons.mp hc).1
    exact absurd this (by decide)
  · intro hc
    have : ('/' :: l).take 8 = '/' :: l.take 7 := rfl
    rw [this] at hc
    have := (List.cons_eq_cons.mp hc).1
    exact absurd this (by decide)

theorem urlShape_not_uploads {v : String} (h : urlShape v = true) :
    strStartsWith v "/uploads/" = false := by
  cases hb : strStartsWith v "/uploads/" with
  | false => rfl
  | true =>
    exfalso
    obtain ⟨cs, hcs⟩ := uploads_toList_head hb
    unfold urlShape at h
    rw [hcs, List.map_cons] at h
    have hsl : Char.toLower '/' = '/' := rfl
    rw [hsl, schemeRest_slash] at h
    exact Bool.false_ne_true h

theorem startsWith_uploads_ne_empty {v : String}
    (h : strStartsWith v "/uploads/" = true) : (v == "") = false := by
  obtain ⟨cs, hcs⟩ := uploads_toList_head h
  cases he : v == "" with
  | false => rfl
  | true =>
    have hve : v = "" := beq_iff_eq.mp he
    have h0 : ("" : String).toList = [] := rfl
    rw [hve, h0] at hcs
    exact List.noConfusion hcs

/-- Under the stored-poster invariant, `deleteOldPoster` removes the old
backing file exactly when the previous poster kind was `upload`. -/
theorem deleteOldPoster_eq_isUpload {p : Poster} (hinv : posterInvariant p) :
    deleteOldPoster p.value = (p.type == "upload") := by
  obtain ⟨hup, hurl, henum⟩ := hinv
  cases henum with
  | inl h =>
    have hsw := hup h
    unfold deleteOldPoster
    rw [hsw, startsWith_uploads_ne_empty hsw, h]
    rfl
  | inr h =>
    have hu : urlShape p.value = true := hurl h
    unfold deleteOldPoster
    rw [urlShape_not_uploads hu, h]
    simp

theorem finishUpdate_oldFileDeleted (existing : Event) (body : EventReqBody)
    (ns : List Speaker) (np : Option Poster) (del : Bool) :
    (finishUpdate existing body ns np del).oldFileDeleted = del := by
  unfold finishUpdate
  split
  · rfl
  · rfl

theorem finishUpdate_status200_poster (existing : Event) (body : EventReqBody)
    (ns : List Speaker) (np : Option Poster) (del : Bool)
    (hst : (finishUpdate existing body ns np del).status = 200) :
    (finishUpdate existing body ns np del).finalEvent.poster
      = np.getD existing.poster := by
  unfold finishUpdate at hst ⊢
  split at hst
  · rename_i h
    rw [if_pos h]
    rfl
  · simp at hst

theorem finishUpdate_poster_of_none (existing : Event) (body : EventReqBody)
    (ns : List Speaker) (del : Bool) :
    (finishUpdate existing body ns none del).finalEvent.poster
      = existing.poster := by
  unfold finishUpdate
  split
  · rfl
  · rfl

theorem verifyOtp_success_dbFail (env : AuthEnv) (code : String) (now : Nat)
    (s : OtpStore) (e : OtpEntry)
    (hget : otpGet s env.clubEmail = some e)
    (hcode : e.otp = code) (hexp : now ≤ e.expires) :
    (verifyOtp env env.clubEmail code now .dbFail s).1 = .serverError := by
  unfold verifyOtp
  rw [if_neg (fun hc => hc rfl), hget]
  dsimp only
  rw [if_neg (by push_neg; exact ⟨hcode, hexp⟩)]

theorem generateOtp_sendFail (env : AuthEnv) (code : String) (now : Nat)
    (s : OtpStore) :
    generateOtp env env.clubEmail env.adminSecret code now false s =
      (.sendFailed, otpSet s env.clubEmail ⟨code, now + 10 * 60 * 1000⟩) := by
  unfold generateOtp
  rw [if_neg (fun h => h rfl), if_neg (fun h => h rfl)]
  rfl

theorem verifyOtp_loggedIn_store (env : AuthEnv) (email otpIn : String)
    (now : Nat) (login : LoginOutcome) (s : OtpStore) (p : TokenPayload)
    (hp : (verifyOtp env email otpIn now login s).1 = .loggedIn p) :
    (verifyOtp env email otpIn now login s).2 = otpDel s email := by
  unfold verifyOtp at hp ⊢
  split at hp
  · exact absurd hp (by simp)
  · rename_i h
    rw [if_neg h]
    split at hp
    · exact absurd hp (by simp)
    · rename_i e hg
      split at hp
      · exact absurd hp (by simp)
      · rename_i hb
        rw [if_neg hb]
        cases login <;> rfl

/-! ## Claim theorems -/

/-- Claim C2: for every OTP issued to the admin email, a verify call within
10 minutes with the exact issued code succeeds (role claim "admin"), the
success deletes the stored entry, and a second verify with the same code
fails with the invalid-or-expired error — verify succeeds exactly once per
issuance. -/
theorem otp_issue_verify_single_use (env : AuthEnv) (s0 : OtpStore)
    (code : String) (now now2 now3 : Nat) (sendOk : Bool)
    (login login2 : LoginOutcome)
    (hwithin : now2 ≤ now + 10 * 60 * 1000)
    (hlogin : login ≠ LoginOutcome.dbFail) :
    (∃ p, (verifyOtp env env.clubEmail code now2 login
        (generateOtp env env.clubEmail env.adminSecret code now sendOk s0).2).1
        = VerifyResult.loggedIn p ∧ p.role = "admin") ∧
    otpGet (verifyOtp env env.clubEmail code now2 login
        (generateOtp env env.clubEmail env.adminSecret code now sendOk s0).2).2
        env.clubEmail = none ∧
    verifyOtp env env.clubEmail code now3 login2
        (verifyOtp env env.clubEmail code now2 login
          (generateOtp env env.clubEmail env.adminSecret code now sendOk s0).2).2
      = (VerifyResult.invalidOrExpired,
         (verifyOtp env env.clubEmail code now2 login
           (generateOtp env env.clubEmail env.adminSecret code now sendOk s0).2).2) := by
  have hs1 : (generateOtp env env.clubEmail env.adminSecret code now sendOk s0).2
      = otpSet s0 env.clubEmail ⟨code, now + 10 * 60 * 1000⟩ :=
    generateOtp_success_store env code now sendOk s0
  rw [hs1]
  have hget : otpGet (otpSet s0 env.clubEmail ⟨code, now + 10 * 60 * 1000⟩)
      env.clubEmail = some ⟨code, now + 10 * 60 * 1000⟩ := otpGet_set_self _ _ _
  have hstore := verifyOtp_success_store env code now2 login _ _ hget rfl hwithin
  refine ⟨verifyOtp_success_result env code now2 login _ _ hget rfl hwithin hlogin,
    ?_, ?_⟩
  · rw [hstore]
    exact otpGet_del_self _ _
  · exact verifyOtp_noEntry env code now3 login2 _
      (by rw [hstore]; exact otpGet_del_self _ _)

theorem otp_issue_verify_single_use_witness :
    ∃ p, (verifyOtp ⟨"club@x.com", "s3cret"⟩ "club@x.com" "a1b2c3" 500000
        LoginOutcome.notFound
        (generateOtp ⟨"club@x.com", "s3cret"⟩ "club@x.com" "s3cret" "a1b2c3"
          1000 true []).2).1
      = VerifyResult.loggedIn p ∧ p.role = "admin" :=
  (otp_issue_verify_single_use ⟨"club@x.com", "s3cret"⟩ [] "a1b2c3" 1000 500000
      700000 true LoginOutcome.notFound LoginOutcome.notFound (by norm_num)
      (by decide)).1

/-- Claim C3: verify answers invalid-or-expired whenever no entry exists for
the email, the submitted code differs, or now is strictly past the stored
expiry; in particular every verify at least 10 minutes and 1 second after
issuance fails regardless of the submitted code. -/
theorem verifyOtp_rejects_invalid_or_expired (env : AuthEnv) (s s0 : OtpStore)
    (code codeIssued codeSub : String) (now issuedAt now2 : Nat)
    (login login2 : LoginOutcome) (sendOk : Bool)
    (hbad : otpGet s env.clubEmail = none ∨
      ∃ e, otpGet s env.clubEmail = some e ∧ (e.otp ≠ code ∨ now > e.expires))
    (hlate : issuedAt + 601000 ≤ now2) :
    verifyOtp env env.clubEmail code now login s
      = (VerifyResult.invalidOrExpired, s) ∧
    verifyOtp env env.clubEmail codeSub now2 login2
        (generateOtp env env.clubEmail env.adminSecret codeIssued issuedAt sendOk s0).2
      = (VerifyResult.invalidOrExpired,
         (generateOtp env env.clubEmail env.adminSecret codeIssued issuedAt sendOk s0).2) := by
  constructor
  · cases hbad with
    | inl h => exact verifyOtp_noEntry env code now login s h
    | inr h =>
      obtain ⟨e, hget, hb⟩ := h
      exact verifyOtp_reject env code now login s e hget hb
  · rw [generateOtp_success_store env codeIssued issuedAt sendOk s0]
    exact verifyOtp_reject env codeSub now2 login2 _ _ (otpGet_set_self _ _ _)
      (Or.inr (show now2 > issuedAt + 10 * 60 * 1000 by omega))

theorem verifyOtp_rejects_invalid_or_expired_witness :
    verifyOtp ⟨"club@x.com", "s3cret"⟩ "club@x.com" "a1b2c3" 5000
        LoginOutcome.notFound [] = (VerifyResult.invalidOrExpired, []) ∧
    verifyOtp ⟨"club@x.com", "s3cret"⟩ "club@x.com" "a1b2c3" 601000
        LoginOutcome.notFound
        (generateOtp ⟨"club@x.com", "s3cret"⟩ "club@x.com" "s3cret" "a1b2c3"
          0 true []).2
      = (VerifyResult.invalidOrExpired,
         (generateOtp ⟨"club@x.com", "s3cret"⟩ "club@x.com" "s3cret" "a1b2c3"
           0 true []).2) :=
  verifyOtp_rejects_invalid_or_expired ⟨"club@x.com", "s3cret"⟩ [] []
    "a1b2c3" "a1b2c3" "a1b2c3" 5000 0 601000 LoginOutcome.notFound
    LoginOutcome.notFound true (Or.inl rfl) (by norm_num)

/-- Claim C4: generate-otp answers 400 for a non-matching email and 401 for a
non-matching secret, both without storing an OTP; with matching credentials
the new entry is stored, and a delivery failure answers 500 while the entry
remains in the map, so a later verify with that code still succeeds. -/
theorem generateOtp_outcomes (env : AuthEnv) (s : OtpStore)
    (email secret code : String) (now : Nat) (sendOk : Bool) :
    (email ≠ env.clubEmail →
      generateOtp env email secret code now sendOk s = (GenResult.invalidEmail, s) ∧
      genStatus GenResult.invalidEmail = 400) ∧
    (email = env.clubEmail → secret ≠ env.adminSecret →
      generateOtp env email secret code now sendOk s = (GenResult.invalidSecret, s) ∧
      genStatus GenResult.invalidSecret = 401) ∧
    ((generateOtp env env.clubEmail env.adminSecret code now false s).1
        = GenResult.sendFailed ∧
      genStatus GenResult.sendFailed = 500) ∧
    otpGet (generateOtp env env.clubEmail env.adminSecret code now false s).2
        env.clubEmail = some ⟨code, now + 10 * 60 * 1000⟩ ∧
    (∀ now2 login, now2 ≤ now + 10 * 60 * 1000 → login ≠ LoginOutcome.dbFail →
      ∃ p, (verifyOtp env env.clubEmail code now2 login
          (generateOtp env env.clubEmail env.adminSecret code now false s).2).1
        = VerifyResult.loggedIn p) := by
  refine ⟨?_, ?_, ?_, ?_, ?_⟩
  · intro h
    unfold generateOtp
    rw [if_pos h]
    exact ⟨rfl, rfl⟩
  · intro h1 h2
    unfold generateOtp
    rw [if_neg (by rw [h1]; exact fun hc => hc rfl), if_pos h2]
    exact ⟨rfl, rfl⟩
  · rw [generateOtp_sendFail]
    exact ⟨rfl, rfl⟩
  · rw [generateOtp_sendFail]
    exact otpGet_set_self _ _ _
  · intro now2 login hle hlogin
    rw [generateOtp_sendFail]
    obtain ⟨p, hp, _⟩ := verifyOtp_success_result env code now2 login _
      ⟨code, now + 10 * 60 * 1000⟩ (otpGet_set_self _ _ _) rfl hle hlogin
    exact ⟨p, hp⟩

theorem generateOtp_outcomes_witness :
    generateOtp ⟨"club@x.com", "s3cret"⟩ "other@x.com" "s3cret" "a1b2c3"
        1000 true [] = (GenResult.invalidEmail, []) ∧
    generateOtp ⟨"club@x.com", "s3cret"⟩ "club@x.com" "wrong" "a1b2c3"
        1000 true [] = (GenResult.invalidSecret, []) ∧
    otpGet (generateOtp ⟨"club@x.com", "s3cret"⟩ "club@x.com" "s3cret" "a1b2c3"
        1000 false []).2 "club@x.com" = some ⟨"a1b2c3", 1000 + 10 * 60 * 1000⟩ :=
  ⟨((generateOtp_outcomes ⟨"club@x.com", "s3cret"⟩ [] "other@x.com" "s3cret"
      "a1b2c3" 1000 true).1 (by decide)).1,
   ((generateOtp_outcomes ⟨"club@x.com", "s3cret"⟩ [] "club@x.com" "wrong"
      "a1b2c3" 1000 true).2.1 rfl (by decide)).1,
   (generateOtp_outcomes ⟨"club@x.com", "s3cret"⟩ [] "club@x.com" "wrong"
      "a1b2c3" 1000 false).2.2.2.1⟩

/-- Claim C5: the OTP store keeps at most one entry per email — both handlers
preserve the no-duplicate-keys invariant, issuance with correct credentials
overwrites the entry for the admin email, and a successful verification
deletes the entry for the submitted email. -/
theorem otpStore_at_most_one_entry_per_email (env : AuthEnv) (s : OtpStore)
    (email secret code otpIn : String) (now : Nat) (sendOk : Bool)
    (login : LoginOutcome) (h : storeKeysNodup s) :
    storeKeysNodup (generateOtp env email secret code now sendOk s).2 ∧
    storeKeysNodup (verifyOtp env email otpIn now login s).2 ∧
    otpGet (generateOtp env env.clubEmail env.adminSecret code now sendOk s).2
      env.clubEmail = some ⟨code, now + 10 * 60 * 1000⟩ ∧
    (∀ p, (verifyOtp env email otpIn now login s).1 = VerifyResult.loggedIn p →
      otpGet (verifyOtp env email otpIn now login s).2 email = none) := by
  refine ⟨?_, ?_, ?_, ?_⟩
  · unfold generateOtp
    split
    · exact h
    · split
      · exact h
      · cases sendOk
        · exact otpSet_nodup _ _ _ h
        · exact otpSet_nodup _ _ _ h
  · unfold verifyOtp
    split
    · exact h
    · split
      · exact h
      · split
        · exact h
        · cases login
          · exact otpDel_nodup _ _ h
          · exact otpDel_nodup _ _ h
          · exact otpDel_nodup _ _ h
  · rw [generateOtp_success_store]
    exact otpGet_set_self _ _ _
  · intro p hp
    rw [verifyOtp_loggedIn_store env email otpIn now login s p hp]
    exact otpGet_del_self _ _

theorem otpStore_at_most_one_entry_per_email_witness :
    storeKeysNodup (generateOtp ⟨"club@x.com", "s3cret"⟩ "club@x.com" "s3cret"
        "ffffff" 2000 true [("club@x.com", ⟨"a1b2c3", 1000⟩)]).2 ∧
    otpGet (generateOtp ⟨"club@x.com", "s3cret"⟩ "club@x.com" "s3cret"
        "ffffff" 2000 true [("club@x.com", ⟨"a1b2c3", 1000⟩)]).2 "club@x.com"
      = some ⟨"ffffff", 2000 + 10 * 60 * 1000⟩ :=
  ⟨(otpStore_at_most_one_entry_per_email ⟨"club@x.com", "s3cret"⟩
      [("club@x.com", ⟨"a1b2c3", 1000⟩)] "club@x.com" "s3cret" "ffffff" "x"
      2000 true LoginOutcome.notFound (by unfold storeKeysNodup; decide)).1,
   (otpStore_at_most_one_entry_per_email ⟨"club@x.com", "s3cret"⟩
      [("club@x.com", ⟨"a1b2c3", 1000⟩)] "club@x.com" "s3cret" "ffffff" "x"
      2000 true LoginOutcome.notFound (by unfold storeKeysNodup; decide)).2.2.1⟩

/-- Claim C10: in verify-otp the stored entry is deleted before the user
lookup and token signing, so a database/signing failure still answers 500
with the OTP already consumed: a retry with the same correct code fails with
invalid-or-expired. -/
theorem verifyOtp_consumes_before_login (env : AuthEnv) (s : OtpStore)
    (code : String) (now : Nat) (e : OtpEntry)
    (hget : otpGet s env.clubEmail = some e)
    (hcode : e.otp = code) (hexp : now ≤ e.expires) :
    (verifyOtp env env.clubEmail code now LoginOutcome.dbFail s).1
      = VerifyResult.serverError ∧
    verifyStatus (verifyOtp env env.clubEmail code now LoginOutcome.dbFail s).1
      = 500 ∧
    otpGet (verifyOtp env env.clubEmail code now LoginOutcome.dbFail s).2
      env.clubEmail = none ∧
    (∀ now2 login2, verifyOtp env env.clubEmail code now2 login2
        (verifyOtp env env.clubEmail code now LoginOutcome.dbFail s).2
      = (VerifyResult.invalidOrExpired,
         (verifyOtp env env.clubEmail code now LoginOutcome.dbFail s).2)) := by
  have h1 := verifyOtp_success_dbFail env code now s e hget hcode hexp
  have h2 := verifyOtp_success_store env code now LoginOutcome.dbFail s e
    hget hcode hexp
  refine ⟨h1, by rw [h1]; rfl, ?_, ?_⟩
  · rw [h2]
    exact otpGet_del_self _ _
  · intro now2 login2
    exact verifyOtp_noEntry env code now2 login2 _
      (by rw [h2]; exact otpGet_del_self _ _)

theorem verifyOtp_consumes_before_login_witness :
    (verifyOtp ⟨"club@x.com", "s3cret"⟩ "club@x.com" "a1b2c3" 5000
        LoginOutcome.dbFail [("club@x.com", ⟨"a1b2c3", 601000⟩)]).1
      = VerifyResult.serverError ∧
    otpGet (verifyOtp ⟨"club@x.com", "s3cret"⟩ "club@x.com" "a1b2c3" 5000
        LoginOutcome.dbFail [("club@x.com", ⟨"a1b2c3", 601000⟩)]).2
      "club@x.com" = none :=
  ⟨(verifyOtp_consumes_before_login ⟨"club@x.com", "s3cret"⟩
      [("club@x.com", ⟨"a1b2c3", 601000⟩)] "a1b2c3" 5000 ⟨"a1b2c3", 601000⟩
      rfl rfl (by norm_num)).1,
   (verifyOtp_consumes_before_login ⟨"club@x.com", "s3cret"⟩
      [("club@x.com", ⟨"a1b2c3", 601000⟩)] "a1b2c3" 5000 ⟨"a1b2c3", 601000⟩
      rfl rfl (by norm_num)).2.2.1⟩

/-- Claim C9: the role gate answers the no-identity error when the claim or
its role is absent (JS-falsy, including the empty string), the
role-not-allowed error when the role is not in the allowed set, and passes
otherwise; it is a pure function of its inputs — in particular a claim with
role "admin" passes against ["admin"]. -/
theorem authorizeRoles_characterization (roles : List String) (u : UserClaim)
    (r : String) :
    authorizeRoles roles none = AuthzOutcome.noIdentity ∧
    (u.role = none → authorizeRoles roles (some u) = AuthzOutcome.noIdentity) ∧
    (u.role = some "" → authorizeRoles roles (some u) = AuthzOutcome.noIdentity) ∧
    (u.role = some r → r ≠ "" → roles.contains r = false →
      authorizeRoles roles (some u) = AuthzOutcome.roleNotAllowed) ∧
    (u.role = some r → r ≠ "" → roles.contains r = true →
      authorizeRoles roles (some u) = AuthzOutcome.pass) ∧
    (∀ id, authorizeRoles ["admin"] (some ⟨id, some "admin"⟩)
      = AuthzOutcome.pass) := by
  refine ⟨rfl, ?_, ?_, ?_, ?_, fun id => rfl⟩
  · intro h
    simp [authorizeRoles, h]
  · intro h
    simp [authorizeRoles, h]
  · intro h hne hc
    unfold authorizeRoles
    dsimp only
    rw [h]
    dsimp only
    rw [if_neg hne]
    simp only [hc]
    rfl
  · intro h hne hc
    unfold authorizeRoles
    dsimp only
    rw [h]
    dsimp only
    rw [if_neg hne]
    simp only [hc]
    rfl

theorem authorizeRoles_characterization_witness :
    authorizeRoles ["admin"] (some ⟨"u1", some "member"⟩)
      = AuthzOutcome.roleNotAllowed ∧
    authorizeRoles ["admin"] (some ⟨"u1", some "admin"⟩) = AuthzOutcome.pass :=
  ⟨(authorizeRoles_characterization ["admin"] ⟨"u1", some "member"⟩
      "member").2.2.2.1 rfl (by decide) (by decide),
   (authorizeRoles_characterization ["admin"] ⟨"u1", some "admin"⟩
      "admin").2.2.2.2.2 "u1"⟩

/-- Claim C6: on create the poster is decided by precedence — an uploaded
file gives kind upload with value /uploads/<generated-name>; else a declared
posterType url with a truthy posterValue gives kind url with that value;
else (no file and no url declaration, or url declared without a value) the
fixed placeholder; and a persisted event carries exactly the poster so
decided. -/
theorem createPoster_precedence (body : EventReqBody) (file : Option ReqFile)
    (f : ReqFile) (v : String) :
    createPoster (some f) body.posterType body.posterValue
      = ⟨"upload", "/uploads/" ++ f.filename⟩ ∧
    (body.posterType = some "url" → body.posterValue = some v → v ≠ "" →
      createPoster none body.posterType body.posterValue = ⟨"url", v⟩) ∧
    (body.posterType = some "url" → truthy body.posterValue = false →
      createPoster none body.posterType body.posterValue
        = ⟨"url", placeholderPoster⟩) ∧
    (body.posterType ≠ some "url" →
      createPoster none body.posterType body.posterValue
        = ⟨"url", placeholderPoster⟩) ∧
    (∀ e, (createEvent body file).saved = some e →
      e.poster = createPoster file body.posterType body.posterValue) := by
  refine ⟨rfl, ?_, ?_, ?_, ?_⟩
  · intro h1 h2 h3
    simp [createPoster, h1, h2, truthy, h3]
  · intro h1 h2
    simp [createPoster, h1, h2]
  · intro h1
    have hb : (body.posterType == some "url") = false := by
      cases hb2 : body.posterType == some "url" with
      | false => rfl
      | true => exact absurd (beq_iff_eq.mp hb2) h1
    simp [createPoster, hb]
  · intro e he
    unfold createEvent at he
    split at he
    · simp at he
    · split at he
      · simp at he
      · unfold saveNewEvent at he
        split at he
        · have h2 := Option.some.inj he
          subst h2
          rfl
        · simp at he
      · unfold saveNewEvent at he
        split at he
        · have h2 := Option.some.inj he
          subst h2
          rfl
        · simp at he

theorem createPoster_precedence_witness :
    createPoster none (some "url") (some "https://x.io/a.png")
      = ⟨"url", "https://x.io/a.png"⟩ ∧
    createPoster none none none = ⟨"url", placeholderPoster⟩ :=
  ⟨(createPoster_precedence
      { posterType := some "url", posterValue := some "https://x.io/a.png" }
      none ⟨"x"⟩ "https://x.io/a.png").2.1 rfl rfl (by decide),
   (createPoster_precedence {} none ⟨"x"⟩ "x").2.2.2.1 (by decide)⟩

/-- Claim C7: an update request that supplies neither an uploaded file nor a
(truthy) posterType leaves the stored poster exactly as it was and deletes
no file, whatever else the request carries and whether or not it succeeds. -/
theorem updateEvent_poster_untouched (existing : Event) (body : EventReqBody)
    (hpt : body.posterType = none ∨ body.posterType = some "") :
    (updateEvent existing body none).finalEvent.poster = existing.poster ∧
    (updateEvent existing body none).oldFileDeleted = false := by
  obtain ⟨bn, bd, bt, bl, blk, bay, bde, bsp, bpt, bpv⟩ := body
  have key : ∀ ns, (updatePoster existing ⟨bn, bd, bt, bl, blk, bay, bde, bsp, bpt, bpv⟩
        none ns).finalEvent.poster = existing.poster ∧
      (updatePoster existing ⟨bn, bd, bt, bl, blk, bay, bde, bsp, bpt, bpv⟩
        none ns).oldFileDeleted = false := by
    intro ns
    cases hpt with
    | inl h =>
      cases h
      exact ⟨finishUpdate_poster_of_none _ _ _ _, finishUpdate_oldFileDeleted _ _ _ _ _⟩
    | inr h =>
      cases h
      exact ⟨finishUpdate_poster_of_none _ _ _ _, finishUpdate_oldFileDeleted _ _ _ _ _⟩
  cases bsp with
  | none => exact key _
  | some si =>
    cases si with
    | malformed => exact ⟨rfl, rfl⟩
    | wellFormed l => exact key _

theorem updateEvent_poster_untouched_witness :
    (updateEvent
      { eventName := "Old Event", eventDate := "2024-01-01", eventTime := "",
        eventLocation := "Hall", eventLink := "", academicYear := "2024-25",
        description := "", speakers := [⟨some "Alice", some 1⟩],
        poster := ⟨"upload", "/uploads/old.png"⟩ }
      { eventName := some "New Name" } none).finalEvent.poster
      = ⟨"upload", "/uploads/old.png"⟩ :=
  (updateEvent_poster_untouched
    { eventName := "Old Event", eventDate := "2024-01-01", eventTime := "",
      eventLocation := "Hall", eventLink := "", academicYear := "2024-25",
      description := "", speakers := [⟨some "Alice", some 1⟩],
      poster := ⟨"upload", "/uploads/old.png"⟩ }
    { eventName := some "New Name" } (Or.inl rfl)).1

/-- Claim C8 fails as stated: an update request that carries a new file but a
malformed speakers payload answers 400 at the speakers parse, before the
poster step — the previous poster kind is upload yet its backing file is not
deleted and the field is not set to the new path. -/
theorem updateEvent_malformed_speakers_skips_poster :
    (updateEvent
      { eventName := "Old Event", eventDate := "2024-01-01", eventTime := "",
        eventLocation := "Hall", eventLink := "", academicYear := "2024-25",
        description := "", speakers := [⟨some "Alice", some 1⟩],
        poster := ⟨"upload", "/uploads/old.png"⟩ }
      { speakers := some SpeakersInput.malformed }
      (some ⟨"new.png"⟩)).oldFileDeleted = false ∧
    (updateEvent
      { eventName := "Old Event", eventDate := "2024-01-01", eventTime := "",
        eventLocation := "Hall", eventLink := "", academicYear := "2024-25",
        description := "", speakers := [⟨some "Alice", some 1⟩],
        poster := ⟨"upload", "/uploads/old.png"⟩ }
      { speakers := some SpeakersInput.malformed }
      (some ⟨"new.png"⟩)).status = 400 ∧
    (updateEvent
      { eventName := "Old Event", eventDate := "2024-01-01", eventTime := "",
        eventLocation := "Hall", eventLink := "", academicYear := "2024-25",
        description := "", speakers := [⟨some "Alice", some 1⟩],
        poster := ⟨"upload", "/uploads/old.png"⟩ }
      { speakers := some SpeakersInput.malformed }
      (some ⟨"new.png"⟩)).finalEvent.poster
      = ⟨"upload", "/uploads/old.png"⟩ :=
  ⟨rfl, rfl, rfl⟩

/-- Claim C8 as amended: provided the speakers payload (if supplied) is
well-formed, an update carrying a new file deletes the previous backing file
iff the previous poster kind was upload (under the stored-poster invariant)
and, when the update passes validation (status 200), stores kind upload with
the new path; declaring posterType url without a file likewise deletes the
previous file exactly when the previous kind was upload and, on success,
overwrites the field with the URL. -/
theorem updateEvent_poster_reconciliation (existing : Event)
    (body : EventReqBody) (f : ReqFile)
    (hsp : body.speakers ≠ some SpeakersInput.malformed)
    (hinv : posterInvariant existing.poster) :
    ((updateEvent existing body (some f)).oldFileDeleted
        = (existing.poster.type == "upload")) ∧
    ((updateEvent existing body (some f)).status = 200 →
      (updateEvent existing body (some f)).finalEvent.poster
        = ⟨"upload", "/uploads/" ++ f.filename⟩) ∧
    (body.posterType = some "url" →
      ((updateEvent existing body none).oldFileDeleted
          = (existing.poster.type == "upload")) ∧
      ((updateEvent existing body none).status = 200 →
        (updateEvent existing body none).finalEvent.poster
          = ⟨"url", body.posterValue.getD ""⟩)) := by
  have hdel : deleteOldPoster existing.poster.value
      = (existing.poster.type == "upload") :=
    deleteOldPoster_eq_isUpload hinv
  have hdel2 : (if existing.poster.type == "upload" then
        deleteOldPoster existing.poster.value else false)
      = (existing.poster.type == "upload") := by
    cases ht : existing.poster.type == "upload" with
    | false => simp
    | true => rw [if_pos rfl, hdel, ht]
  refine ⟨?_, ?_, ?_⟩
  · unfold updateEvent
    split
    · rename_i hm
      exact absurd hm hsp
    · exact (finishUpdate_oldFileDeleted _ _ _ _ _).trans hdel
    · exact (finishUpdate_oldFileDeleted _ _ _ _ _).trans hdel
  · unfold updateEvent
    split
    · rename_i hm
      exact absurd hm hsp
    · intro hst
      exact finishUpdate_status200_poster _ _ _ _ _ hst
    · intro hst
      exact finishUpdate_status200_poster _ _ _ _ _ hst
  · intro hurl
    have hC : ∀ ns,
        (updatePoster existing body none ns).oldFileDeleted
          = (existing.poster.type == "upload") ∧
        ((updatePoster existing body none ns).status = 200 →
          (updatePoster existing body none ns).finalEvent.poster
            = ⟨"url", body.posterValue.getD ""⟩) := by
      intro ns
      unfold updatePoster
      rw [hurl]
      dsimp only
      rw [if_neg (show ¬("url" : String) = "" by decide), if_pos rfl, hdel2]
      constructor
      · exact finishUpdate_oldFileDeleted _ _ _ _ _
      · intro hst
        exact finishUpdate_status200_poster _ _ _ _ _ hst
    unfold updateEvent
    split
    · rename_i hm
      exact absurd hm hsp
    · exact hC _
    · exact hC _

theorem updateEvent_poster_reconciliation_witness :
    (updateEvent
      { eventName := "Old Event", eventDate := "2024-01-01", eventTime := "",
        eventLocation := "Hall", eventLink := "", academicYear := "2024-25",
        description := "", speakers := [⟨some "Alice", some 1⟩],
        poster := ⟨"upload", "/uploads/old.png"⟩ }
      {} (some ⟨"new.png"⟩)).oldFileDeleted = true :=
  (updateEvent_poster_reconciliation
    { eventName := "Old Event", eventDate := "2024-01-01", eventTime := "",
      eventLocation := "Hall", eventLink := "", academicYear := "2024-25",
      description := "", speakers := [⟨some "Alice", some 1⟩],
      poster := ⟨"upload", "/uploads/old.png"⟩ }
    {} ⟨"new.png"⟩ (by decide)
    ⟨fun _ => by decide, fun h => absurd h (by decide), Or.inl rfl⟩).1

/-- Claim C1 fails on the code: a create request carrying an uploaded file
whose speakers list is well-formed but empty passes the basic field check,
fails schema validation at save, and the route answers 400 with zero
persisted events but the uploaded file still on disk; a malformed speakers
payload likewise retains the file.  Only the missing-required-fields branch
(third conjunct) unlinks the upload. -/
theorem createEvent_orphan_file_on_validation_error :
    createEvent
      { eventName := some "Tech Talk", eventDate := some "2025-01-01",
        eventLocation := some "Hall", academicYear := some "2024-25",
        speakers := some (SpeakersInput.wellFormed []) }
      (some ⟨"posterFile-1.png"⟩)
      = { status := 400, saved := none, fileKept := true } ∧
    createEvent
      { eventName := some "Tech Talk", eventDate := some "2025-01-01",
        eventLocation := some "Hall", academicYear := some "2024-25",
        speakers := some SpeakersInput.malformed }
      (some ⟨"posterFile-1.png"⟩)
      = { status := 400, saved := none, fileKept := true } ∧
    createEvent
      { eventDate := some "2025-01-01", eventLocation := some "Hall",
        academicYear := some "2024-25" }
      (some ⟨"posterFile-1.png"⟩)
      = { status := 400, saved := none, fileKept := false } :=
  ⟨by decide, by decide, by decide⟩

end TBH
